import Mathlib

/- Shallow embedding of the facial-recognition auth frontend (a single React
component).  The useState hooks become fields of `AppState`; each event
handler becomes a pure state transformer that also returns the list of
network requests it dispatches; every asynchronous handler takes the remote
outcome as an explicit parameter.  The 5-second notification expiry, which
lives in setTimeout callbacks, is modelled separately in `NotifTimedState`
as explicit pending timers. -/

namespace FaceAuth

/-- A transient status message; mirrors the object passed to
setNotification: type is one of info, success, error. -/
structure Notification where
  message : String
  type : String
  deriving DecidableEq, Repr

/-- A browser File object as the handlers observe it: its MIME type, byte
size, and the data URL that FileReader.readAsDataURL would produce for it. -/
structure File where
  type : String
  size : Nat
  dataURL : String
  deriving DecidableEq, Repr

/-- The health response body; only the enrolled-user count is read. -/
structure Health where
  enrolled_users : Nat
  deriving DecidableEq, Repr

/-- The parsed verify response body. Confidence is modelled as a rational. -/
structure VerificationResult where
  success : Bool
  user_id : String
  event : String
  confidence : ℚ
  message : String
  deriving DecidableEq, Repr

/-- The component state: one field per useState hook, in source order. -/
structure AppState where
  activeTab : String
  isLoading : Bool
  notification : Option Notification
  enrolledUsers : List String
  systemHealth : Option Health
  userId : String
  selectedFile : Option File
  previewUrl : Option String
  event : String
  token : String
  verifyImage : Option File
  verifyPreview : Option String
  verificationResult : Option VerificationResult
  useCamera : Bool
  deriving DecidableEq, Repr

/-- A network request dispatched by a handler, identified by method and the
path relative to API_BASE_URL. -/
inductive Call where
  | get (url : String)
  | post (url : String)
  | delete (url : String)
  deriving DecidableEq, Repr

/-- Outcome of an enroll or delete exchange: a 2xx response, a non-2xx
response whose JSON body may carry a detail string, or a thrown
network/transport error. -/
inductive FetchOutcome where
  | ok
  | apiError (detail : Option String)
  | networkError
  deriving DecidableEq, Repr

/-- Outcome of a verify exchange: a response whose body parses as JSON
(carrying the ok flag of the HTTP status, which the handler never reads),
or a thrown network/transport error. -/
inductive VerifyOutcome where
  | response (ok : Bool) (body : VerificationResult)
  | networkError
  deriving DecidableEq, Repr

/-- Outcome of the users listing exchange: a parsed body whose
enrolled_users field may be absent, or a thrown error. -/
inductive UsersOutcome where
  | success (enrolled_users : Option (List String))
  | failure
  deriving DecidableEq, Repr

/-- Local validation failures of image acquisition, in spec vocabulary. -/
inductive ValidationError where
  | NotAnImage
  | TooLarge
  deriving DecidableEq, Repr

/-- JavaScript String.prototype.trim: strip leading and trailing
whitespace. -/
def jsTrim (s : String) : String :=
  String.mk (((s.toList.dropWhile Char.isWhitespace).reverse.dropWhile
    Char.isWhitespace).reverse)

/-- JavaScript String.prototype.startsWith, over the character sequence. -/
def jsStartsWith (s p : String) : Bool :=
  p.toList.isPrefixOf s.toList

/-- Hexadecimal digit character, uppercase, as encodeURIComponent emits. -/
def hexDigit (n : Nat) : Char :=
  if n < 10 then Char.ofNat (48 + n) else Char.ofNat (55 + n)

/-- Percent-encoding of one byte. -/
def percentByte (b : Nat) : String :=
  String.mk [Char.ofNat 37, hexDigit (b / 16), hexDigit (b % 16)]

/-- UTF-8 byte sequence of a character. -/
def utf8Bytes (c : Char) : List Nat :=
  let n := c.toNat
  if n < 128 then [n]
  else if n < 2048 then [192 + n / 64, 128 + n % 64]
  else if n < 65536 then [224 + n / 4096, 128 + (n / 64) % 64, 128 + n % 64]
  else [240 + n / 262144, 128 + (n / 4096) % 64, 128 + (n / 64) % 64, 128 + n % 64]

/-- The mark characters encodeURIComponent leaves unescaped besides
alphanumerics: hyphen, underscore, dot, bang, tilde, star, apostrophe,
parentheses (given by code point). -/
def uriMark (c : Char) : Bool :=
  c == Char.ofNat 45 || c == Char.ofNat 95 || c == Char.ofNat 46 ||
  c == Char.ofNat 33 || c == Char.ofNat 126 || c == Char.ofNat 42 ||
  c == Char.ofNat 39 || c == Char.ofNat 40 || c == Char.ofNat 41

/-- JavaScript encodeURIComponent: alphanumerics and marks pass through,
every other character is percent-encoded byte by byte. -/
def encodeURIComponent (s : String) : String :=
  String.join (s.toList.map fun c =>
    if c.isAlphanum || uriMark c then String.mk [c]
    else String.join ((utf8Bytes c).map percentByte))

/-- The showNotification helper restricted to the state update; the
expiry timer it also schedules is modelled in `NotifTimedState`. -/
def showNotification (s : AppState) (message : String) (ty : String) : AppState :=
  { s with notification := some ⟨message, ty⟩ }

/-- handleFileSelect: ignore a missing file; reject non-image MIME types,
then files over 5 MiB, each with an error notification and no state change;
otherwise store the file and its data-URL preview in the verify or enroll
slot according to isVerify. -/
def handleFileSelect (s : AppState) (file : Option File) (isVerify : Bool) : AppState :=
  match file with
  | none => s
  | some f =>
    if ¬ (jsStartsWith f.type "image/") then
      showNotification s "Please select an image file" "error"
    else if 5 * 1024 * 1024 < f.size then
      showNotification s "Image must be less than 5MB" "error"
    else if isVerify then
      { s with verifyImage := some f, verifyPreview := some f.dataURL }
    else
      { s with selectedFile := some f, previewUrl := some f.dataURL }

/-- The acquisition validation chain of handleFileSelect, as a contract in
spec vocabulary: MIME check first, size check second. -/
def validateFile (f : File) : Option ValidationError :=
  if ¬ (jsStartsWith f.type "image/") then some .NotAnImage
  else if 5 * 1024 * 1024 < f.size then some .TooLarge
  else none

/-- The error notification text that each validation failure raises. -/
def validationMessage : ValidationError → String
  | .NotAnImage => "Please select an image file"
  | .TooLarge => "Image must be less than 5MB"

/-- handleEnroll, the whole async run: guard on trimmed userId and on a
selected file; once started it dispatches the leftover JSON POST and the
real multipart POST (with the identifier URL-encoded into the query), then
on 2xx resets the form, notifies success and refreshes users and health; on
a non-2xx or thrown error it notifies and keeps inputs; finally the loading
flag is cleared.  The call list records the requests of the run. -/
def handleEnroll (s : AppState) (o : FetchOutcome) : AppState × List Call :=
  if jsTrim s.userId = "" then
    (showNotification s "Please enter a user ID" "error", [])
  else if s.selectedFile.isNone then
    (showNotification s "Please select an image" "error", [])
  else
    let calls := [Call.post "/enroll",
                  Call.post ("/enroll?user_id=" ++ encodeURIComponent s.userId)]
    let s1 := { s with isLoading := true }
    match o with
    | .ok =>
      ({ showNotification s1 "Face enrolled successfully!" "success" with
          userId := "", selectedFile := none, previewUrl := none,
          isLoading := false },
       calls ++ [Call.get "/users", Call.get "/health"])
    | .apiError d =>
      ({ showNotification s1 (d.getD "Enrollment failed") "error" with
          isLoading := false }, calls)
    | .networkError =>
      ({ showNotification s1 "Network error during enrollment" "error" with
          isLoading := false }, calls)

/-- The synchronous prefix of handleEnroll up to its first await: guards,
then setIsLoading(true) before any network call begins. -/
def handleEnrollStart (s : AppState) : AppState :=
  if jsTrim s.userId = "" then
    showNotification s "Please enter a user ID" "error"
  else if s.selectedFile.isNone then
    showNotification s "Please select an image" "error"
  else { s with isLoading := true }

/-- handleVerify, the whole async run: guard on trimmed token and on a
verify image; once started, isLoading is set and the previous result is
cleared, the verify POST is dispatched, and the response body is parsed and
stored regardless of the HTTP ok flag; a success:false body notifies an
error, a thrown error notifies a network error; finally loading clears. -/
def handleVerify (s : AppState) (o : VerifyOutcome) : AppState × List Call :=
  if jsTrim s.token = "" then
    (showNotification s "Please enter a JWT token" "error", [])
  else if s.verifyImage.isNone then
    (showNotification s "Please select an image for verification" "error", [])
  else
    let s1 := { s with isLoading := true, verificationResult := none }
    match o with
    | .response _hok body =>
      let s2 := { s1 with verificationResult := some body }
      let s3 := if body.success then
          showNotification s2 "Verification successful!" "success"
        else showNotification s2 "Verification failed" "error"
      ({ s3 with isLoading := false }, [Call.post "/verify"])
    | .networkError =>
      ({ showNotification s1 "Network error during verification" "error" with
          isLoading := false }, [Call.post "/verify"])

/-- The synchronous prefix of handleVerify up to its first await: guards,
then setIsLoading(true) and setVerificationResult(null). -/
def handleVerifyStart (s : AppState) : AppState :=
  if jsTrim s.token = "" then
    showNotification s "Please enter a JWT token" "error"
  else if s.verifyImage.isNone then
    showNotification s "Please select an image for verification" "error"
  else { s with isLoading := true, verificationResult := none }

/-- deleteUser: the window.confirm gate first; declining returns with no
request and no state change; confirming dispatches one DELETE to
/enroll/{encoded id}, then on 2xx notifies and refreshes users and health,
otherwise notifies the detail or a network error. -/
def deleteUser (s : AppState) (uid : String) (confirmed : Bool) (o : FetchOutcome) :
    AppState × List Call :=
  if ¬ confirmed then (s, [])
  else
    let del := Call.delete ("/enroll/" ++ encodeURIComponent uid)
    match o with
    | .ok =>
      (showNotification s "User deleted successfully" "success",
       [del, Call.get "/users", Call.get "/health"])
    | .apiError d =>
      (showNotification s (d.getD "Failed to delete user") "error", [del])
    | .networkError =>
      (showNotification s "Network error during deletion" "error", [del])

/-- fetchHealth: store the parsed body; a thrown error is caught and only
logged to the console, leaving the state untouched. -/
def fetchHealth (s : AppState) (o : Option Health) : AppState :=
  match o with
  | some h => { s with systemHealth := some h }
  | none => s

/-- fetchUsers: store the enrolled_users field, defaulting to the empty
list; a thrown error is caught and only logged, leaving the state
untouched. -/
def fetchUsers (s : AppState) (o : UsersOutcome) : AppState :=
  match o with
  | .success us => { s with enrolledUsers := us.getD [] }
  | .failure => s

/-- The disabled expression of the enroll submit button:
isLoading or falsy userId or no selected file. -/
def enrollButtonDisabled (s : AppState) : Bool :=
  s.isLoading || s.userId == "" || s.selectedFile.isNone

/-- The disabled expression of the verify submit button:
isLoading or falsy token or no verify image. -/
def verifyButtonDisabled (s : AppState) : Bool :=
  s.isLoading || s.token == "" || s.verifyImage.isNone

/-- A click on the enroll button: a disabled button dispatches nothing. -/
def attemptEnroll (s : AppState) (o : FetchOutcome) : AppState × List Call :=
  if enrollButtonDisabled s then (s, []) else handleEnroll s o

/-- A click on the verify button: a disabled button dispatches nothing. -/
def attemptVerify (s : AppState) (o : VerifyOutcome) : AppState × List Call :=
  if verifyButtonDisabled s then (s, []) else handleVerify s o

/-- The onClick of the verification-method toggle: flip useCamera and null
out the verify image and its preview. -/
def toggleCameraMode (s : AppState) : AppState :=
  { s with useCamera := !s.useCamera, verifyImage := none, verifyPreview := none }

/-- The className chosen for the verification result panel. -/
def resultPanelClass (r : VerificationResult) : String :=
  if r.success then "bg-green-500/20 border-green-500/50 text-green-300"
  else "bg-red-500/20 border-red-500/50 text-red-300"

/-- Number.prototype.toFixed(1) on a rational: round to tenths (half away
from zero is irrelevant on the nonnegative range used) and print one
decimal digit. -/
def toFixed1 (q : ℚ) : String :=
  let n : ℤ := ⌊q * 10 + 1 / 2⌋
  toString (n / 10) ++ "." ++ toString (n % 10)

/-- The confidence cell of the result panel: (confidence * 100).toFixed(1)
followed by a percent sign. -/
def renderConfidence (c : ℚ) : String :=
  toFixed1 (c * 100) ++ "%"

/-- The notification channel with its setTimeout timers made explicit:
the current message and the absolute fire times of pending timeouts. -/
structure NotifTimedState where
  current : Option Notification
  timers : List Nat
  deriving DecidableEq, Repr

/-- showNotification at absolute time now: publish the message and schedule
a clearing timeout 5000 ms later.  No existing timer is cancelled. -/
def showNotificationTimed (now : Nat) (message ty : String) (s : NotifTimedState) :
    NotifTimedState :=
  { current := some ⟨message, ty⟩, timers := s.timers ++ [now + 5000] }

/-- A scheduled timeout firing at time t: it sets the notification to null
unconditionally, whichever message is current. -/
def timerFires (t : Nat) (s : NotifTimedState) : NotifTimedState :=
  { current := none, timers := s.timers.erase t }

/-- The initial component state: the useState defaults, in source order. -/
def initialState : AppState :=
  { activeTab := "enroll", isLoading := false, notification := none,
    enrolledUsers := [], systemHealth := none, userId := "",
    selectedFile := none, previewUrl := none, event := "login-event",
    token := "", verifyImage := none, verifyPreview := none,
    verificationResult := none, useCamera := false }

/-- A well-formed image file used to instantiate theorems. -/
def sampleFile : File :=
  { type := "image/jpeg", size := 1024, dataURL := "data:image/jpeg;base64,AAAA" }

/-- A file whose MIME type is not an image and which is also oversized. -/
def badFile : File :=
  { type := "text/plain", size := 6 * 1024 * 1024, dataURL := "data:text/plain;base64,AAAA" }

/-- The confidence 0.12 of the spec example, given in lowest terms so that
kernel evaluation of comparisons needs no normalization. -/
def sampleConfidence : ℚ :=
  ⟨3, 25, by norm_num, by norm_num⟩

/-- The failed verification body used in the spec example. -/
def sampleResult : VerificationResult :=
  { success := false, user_id := "bob", event := "login-event",
    confidence := sampleConfidence, message := "no match" }

/-- A state whose enroll form is completely filled in. -/
def enrollReadyState : AppState :=
  { initialState with
    userId := "alice"
    selectedFile := some sampleFile
    previewUrl := some "data:image/jpeg;base64,AAAA" }

/-- A state whose verify form is completely filled in. -/
def verifyReadyState : AppState :=
  { initialState with
    token := "tok"
    verifyImage := some sampleFile
    verifyPreview := some "data:image/jpeg;base64,AAAA" }

/-- A state with both forms filled in, ready to submit either. -/
def bothFormsFilled : AppState :=
  { initialState with
    userId := "alice"
    selectedFile := some sampleFile
    token := "tok"
    verifyImage := some sampleFile }

/-- A state holding a received verification result together with the
selected verify image and preview. -/
def verifiedState : AppState :=
  { initialState with
    verificationResult := some sampleResult
    verifyImage := some sampleFile
    verifyPreview := some "data:image/jpeg;base64,AAAA" }

/-- A state with a whitespace-only userId and an image acquired. -/
def whitespaceUserState : AppState :=
  { initialState with
    userId := " "
    selectedFile := some sampleFile }

/-- Predicate for a GET of the users listing. -/
def isGetUsers : Call → Bool
  | .get url => url == "/users"
  | _ => false

/-- Predicate for a GET of the health endpoint. -/
def isGetHealth : Call → Bool
  | .get url => url == "/health"
  | _ => false

/-- Predicate for a DELETE request. -/
def isDeleteCall : Call → Bool
  | .delete _ => true
  | _ => false

/-- C10: invoking file selection with no file at all is a silent no-op: the
state, including any prior image, preview and notification, is returned
unchanged. -/
theorem null_file_noop (s : AppState) (isVerify : Bool) :
    handleFileSelect s none isVerify = s := rfl

/-- C1: with no request in flight, an enroll submit attempt dispatches no
request if and only if the userId is empty or whitespace-only or no
enrollment image has been acquired; the Submitting guard is stated
separately. -/
theorem enroll_gate_iff (s : AppState) (o : FetchOutcome) (h : s.isLoading = false) :
    (attemptEnroll s o).2 = [] ↔ (jsTrim s.userId = "" ∨ s.selectedFile = none) := by
  unfold attemptEnroll enrollButtonDisabled handleEnroll
  by_cases hu : s.userId = ""
  · simp [hu, h]
    exact Or.inl rfl
  · by_cases hf : s.selectedFile = none
    · simp [hu, hf, h]
    · have hf' : s.selectedFile.isNone = false := by
        rcases hsel : s.selectedFile with _ | f
        · exact absurd hsel hf
        · rfl
      by_cases ht : jsTrim s.userId = ""
      · simp [hu, hf, hf', ht, h]
      · rcases o with _ | d | _ <;> simp [hu, hf, hf', ht, h]

/-- Witness for C1 at userId consisting of one space with an image
acquired: the submit attempt dispatches nothing. -/
theorem enroll_gate_iff_witness :
    whitespaceUserState.isLoading = false ∧
    jsTrim whitespaceUserState.userId = "" ∧
    whitespaceUserState.selectedFile = some sampleFile ∧
    (attemptEnroll whitespaceUserState FetchOutcome.ok).2 = [] :=
  ⟨by decide, by decide, rfl,
    (enroll_gate_iff whitespaceUserState .ok (by decide)).mpr (Or.inl (by decide))⟩

/-- C2 is refuted: switching the acquisition mode, and likewise selecting a
new verification image, leaves an existing VerificationResult in place. -/
theorem toggle_keeps_result_cex :
    verifiedState.verificationResult = some sampleResult ∧
    (toggleCameraMode verifiedState).verificationResult = some sampleResult ∧
    (handleFileSelect verifiedState (some sampleFile) true).verificationResult =
      some sampleResult :=
  ⟨rfl, rfl, rfl⟩

/-- C2 (amended): switching the acquisition mode clears the selected verify
image and its preview and flips the mode but leaves the VerificationResult
unchanged; selecting a new verification image also leaves it unchanged; the
result is cleared only when the next verify submission starts. -/
theorem mode_toggle_and_reselect_keep_result (s : AppState) (f : File) :
    (toggleCameraMode s).verifyImage = none ∧
    (toggleCameraMode s).verifyPreview = none ∧
    (toggleCameraMode s).useCamera = !s.useCamera ∧
    (toggleCameraMode s).verificationResult = s.verificationResult ∧
    (handleFileSelect s (some f) true).verificationResult = s.verificationResult ∧
    (jsTrim s.token ≠ "" → s.verifyImage.isNone = false →
      (handleVerifyStart s).verificationResult = none) := by
  refine ⟨rfl, rfl, rfl, rfl, ?_, ?_⟩
  · simp only [handleFileSelect]
    split_ifs <;> rfl
  · intro ht hi
    unfold handleVerifyStart
    simp [ht, hi]

/-- Witness for the amended C2: on a filled verify form, starting a verify
submission clears the stored result. -/
theorem mode_toggle_and_reselect_witness :
    jsTrim verifyReadyState.token ≠ "" ∧
    verifyReadyState.verifyImage.isNone = false ∧
    (handleVerifyStart verifyReadyState).verificationResult = none :=
  ⟨by decide, by decide,
    (mode_toggle_and_reselect_keep_result verifyReadyState sampleFile).2.2.2.2.2
      (by decide) (by decide)⟩

/-- C3 is refuted: notification A raised at time 0 leaves a timeout firing
at 5000; notification B raised at 3000 supersedes A, but A's timeout then
fires at 5000, before B's own expiry 8000, and clears B. -/
theorem stale_timer_clears_superseding_notification :
    (showNotificationTimed 3000 "B" "error"
      (showNotificationTimed 0 "A" "info" ⟨none, []⟩)).timers = [5000, 8000] ∧
    5000 < 3000 + 5000 ∧
    (timerFires 5000 (showNotificationTimed 3000 "B" "error"
      (showNotificationTimed 0 "A" "info" ⟨none, []⟩))).current = none :=
  ⟨rfl, by decide, rfl⟩

/-- C3 (amended): there is at most one active notification and a newly
raised one fully supersedes the prior one content-wise, scheduling its own
5-second expiry; but the prior expiry timer is not cancelled, and any
pending timeout that fires clears whatever notification is then current, so
the superseding notification is not guaranteed its full 5 seconds. -/
theorem notification_supersede_without_cancel (s : NotifTimedState) (now : Nat)
    (m ty : String) (t : Nat) :
    (showNotificationTimed now m ty s).current = some ⟨m, ty⟩ ∧
    (showNotificationTimed now m ty s).timers = s.timers ++ [now + 5000] ∧
    (timerFires t (showNotificationTimed now m ty s)).current = none :=
  ⟨rfl, rfl, rfl⟩

/-- C4 is refuted: with the enroll submission in flight, the verify button
is disabled and a verify submit attempt dispatches nothing, although the
verify form is completely filled in. -/
theorem verify_blocked_by_enroll_inflight :
    (handleEnrollStart bothFormsFilled).isLoading = true ∧
    jsTrim (handleEnrollStart bothFormsFilled).token ≠ "" ∧
    (handleEnrollStart bothFormsFilled).verifyImage.isNone = false ∧
    verifyButtonDisabled (handleEnrollStart bothFormsFilled) = true ∧
    (attemptVerify (handleEnrollStart bothFormsFilled)
      (.response true sampleResult)).2 = [] :=
  ⟨by decide, by decide, by decide, by decide, rfl⟩

/-- C4 (amended): while a submission is in flight the single shared loading
flag rejects re-entrant submit attempts on the same form AND submit
attempts on the other form: the two forms cannot have concurrent in-flight
requests through the UI. -/
theorem submitting_blocks_both_forms (s : AppState) (o : FetchOutcome)
    (o' : VerifyOutcome) (h : s.isLoading = true) :
    attemptEnroll s o = (s, []) ∧ attemptVerify s o' = (s, []) ∧
    enrollButtonDisabled s = true ∧ verifyButtonDisabled s = true := by
  unfold attemptEnroll attemptVerify enrollButtonDisabled verifyButtonDisabled
  simp [h]

/-- Witness for the amended C4 in the state where the enroll run has just
begun. -/
theorem submitting_blocks_both_forms_witness :
    (handleEnrollStart bothFormsFilled).isLoading = true ∧
    attemptEnroll (handleEnrollStart bothFormsFilled) FetchOutcome.ok =
      (handleEnrollStart bothFormsFilled, []) :=
  ⟨by decide,
    (submitting_blocks_both_forms (handleEnrollStart bothFormsFilled) .ok
      (.response true sampleResult) (by decide)).1⟩

/-- C5: acquisition validation is fail-fast in a fixed order, MIME check
before size check, both before any encoding; on failure an error-severity
notification is raised and every image slot, preview and previously
acquired asset is preserved. -/
theorem acquisition_fail_fast (s : AppState) (f : File) (isVerify : Bool)
    (e : ValidationError) (h : validateFile f = some e) :
    handleFileSelect s (some f) isVerify =
      showNotification s (validationMessage e) "error" ∧
    (jsStartsWith f.type "image/" = false → e = .NotAnImage) ∧
    (jsStartsWith f.type "image/" = true → 5 * 1024 * 1024 < f.size →
      e = .TooLarge) ∧
    (handleFileSelect s (some f) isVerify).selectedFile = s.selectedFile ∧
    (handleFileSelect s (some f) isVerify).previewUrl = s.previewUrl ∧
    (handleFileSelect s (some f) isVerify).verifyImage = s.verifyImage ∧
    (handleFileSelect s (some f) isVerify).verifyPreview = s.verifyPreview ∧
    (handleFileSelect s (some f) isVerify).notification =
      some ⟨validationMessage e, "error"⟩ := by
  unfold validateFile at h
  unfold handleFileSelect
  rcases e <;> split_ifs at h ⊢ <;> simp_all [showNotification, validationMessage]

/-- Witness for C5 on a file that is both a non-image and oversized: the
MIME failure wins and nothing but the notification changes. -/
theorem acquisition_fail_fast_witness :
    validateFile badFile = some ValidationError.NotAnImage ∧
    handleFileSelect initialState (some badFile) false =
      showNotification initialState
        (validationMessage ValidationError.NotAnImage) "error" :=
  ⟨by decide,
    (acquisition_fail_fast initialState badFile false .NotAnImage (by decide)).1⟩

/-- C6: a successful enroll and a successful delete each dispatch exactly
one further users listing and one further health fetch, and a successful
enroll resets the form's userId, selected image and preview. -/
theorem refresh_after_success (s : AppState) (uid : String)
    (hu : jsTrim s.userId ≠ "") (hf : s.selectedFile.isNone = false) :
    (handleEnroll s .ok).2.countP isGetUsers = 1 ∧
    (handleEnroll s .ok).2.countP isGetHealth = 1 ∧
    (handleEnroll s .ok).1.userId = "" ∧
    (handleEnroll s .ok).1.selectedFile = none ∧
    (handleEnroll s .ok).1.previewUrl = none ∧
    (deleteUser s uid true .ok).2.countP isGetUsers = 1 ∧
    (deleteUser s uid true .ok).2.countP isGetHealth = 1 := by
  unfold handleEnroll deleteUser
  simp [hu, hf, isGetUsers, isGetHealth, List.countP_cons, List.countP_nil]

/-- Witness for C6 on a filled enroll form. -/
theorem refresh_after_success_witness :
    jsTrim enrollReadyState.userId ≠ "" ∧
    enrollReadyState.selectedFile.isNone = false ∧
    (handleEnroll enrollReadyState .ok).1.userId = "" :=
  ⟨by decide, by decide,
    (refresh_after_success enrollReadyState "alice" (by decide) (by decide)).2.2.1⟩

/-- C7: a declined confirmation dispatches nothing and leaves the state
unchanged; a confirmed deletion dispatches exactly one DELETE, first, to
/enroll/ followed by the URL-encoded identifier; alice encodes to itself. -/
theorem delete_confirmation_gate (s : AppState) (uid : String) (o : FetchOutcome) :
    deleteUser s uid false o = (s, []) ∧
    (deleteUser s uid true o).2.countP isDeleteCall = 1 ∧
    (deleteUser s uid true o).2.head? =
      some (Call.delete ("/enroll/" ++ encodeURIComponent uid)) ∧
    encodeURIComponent "alice" = "alice" := by
  rcases o with _ | d | _ <;>
    simp [deleteUser, isDeleteCall, List.countP_cons, List.countP_nil] <;>
    decide

/-- C8: the verify handler stores the parsed body as the result whatever
the HTTP ok flag was, finishes in the idle state, dispatches one POST;
success false raises the error notification and selects the error-styled
panel; the confidence cell is one decimal digit for any confidence, and
0.12 renders as 12.0 percent. -/
theorem verify_failure_normal_outcome (s : AppState) (ok : Bool)
    (r : VerificationResult)
    (ht : jsTrim s.token ≠ "") (hi : s.verifyImage.isNone = false)
    (hc0 : 0 ≤ r.confidence) (hc1 : r.confidence ≤ 1) :
    (handleVerify s (.response ok r)).1.verificationResult = some r ∧
    (handleVerify s (.response ok r)).1.isLoading = false ∧
    (handleVerify s (.response ok r)).2 = [Call.post "/verify"] ∧
    (r.success = false →
      (handleVerify s (.response ok r)).1.notification =
        some ⟨"Verification failed", "error"⟩ ∧
      resultPanelClass r = "bg-red-500/20 border-red-500/50 text-red-300") ∧
    (∃ a b : String, renderConfidence r.confidence = a ++ "." ++ b ++ "%" ∧
      b.length = 1) ∧
    renderConfidence ((12 : ℚ) / 100) = "12.0%" := by
  refine ⟨?_, ?_, ?_, ?_, ?_, ?_⟩
  · unfold handleVerify
    rcases hs : r.success <;> simp [ht, hi, hs, showNotification]
  · unfold handleVerify
    rcases hs : r.success <;> simp [ht, hi, hs, showNotification]
  · unfold handleVerify
    rcases hs : r.success <;> simp [ht, hi, hs, showNotification]
  · intro hs
    unfold handleVerify resultPanelClass
    simp [ht, hi, hs, showNotification]
  · refine ⟨toString ((⌊r.confidence * 100 * 10 + 1 / 2⌋ : ℤ) / 10),
      toString ((⌊r.confidence * 100 * 10 + 1 / 2⌋ : ℤ) % 10), rfl, ?_⟩
    have h0 : 0 ≤ (⌊r.confidence * 100 * 10 + 1 / 2⌋ : ℤ) % 10 :=
      Int.emod_nonneg _ (by norm_num)
    have h1 : (⌊r.confidence * 100 * 10 + 1 / 2⌋ : ℤ) % 10 < 10 :=
      Int.emod_lt_of_pos _ (by norm_num)
    have hcases : (⌊r.confidence * 100 * 10 + 1 / 2⌋ : ℤ) % 10 = 0 ∨
        (⌊r.confidence * 100 * 10 + 1 / 2⌋ : ℤ) % 10 = 1 ∨
        (⌊r.confidence * 100 * 10 + 1 / 2⌋ : ℤ) % 10 = 2 ∨
        (⌊r.confidence * 100 * 10 + 1 / 2⌋ : ℤ) % 10 = 3 ∨
        (⌊r.confidence * 100 * 10 + 1 / 2⌋ : ℤ) % 10 = 4 ∨
        (⌊r.confidence * 100 * 10 + 1 / 2⌋ : ℤ) % 10 = 5 ∨
        (⌊r.confidence * 100 * 10 + 1 / 2⌋ : ℤ) % 10 = 6 ∨
        (⌊r.confidence * 100 * 10 + 1 / 2⌋ : ℤ) % 10 = 7 ∨
        (⌊r.confidence * 100 * 10 + 1 / 2⌋ : ℤ) % 10 = 8 ∨
        (⌊r.confidence * 100 * 10 + 1 / 2⌋ : ℤ) % 10 = 9 := by omega
    rcases hcases with h | h | h | h | h | h | h | h | h | h <;> rw [h] <;> rfl
  · have h : ((12 : ℚ) / 100 * 100 * 10 + 1 / 2) = 241 / 2 := by norm_num
    unfold renderConfidence toFixed1
    rw [h]
    have h2 : ⌊(241 : ℚ) / 2⌋ = 120 := by
      rw [Int.floor_eq_iff] <;> norm_num
    rw [h2]
    decide

/-- Witness for C8 on a filled verify form with the spec example body. -/
theorem verify_failure_witness :
    jsTrim verifyReadyState.token ≠ "" ∧
    verifyReadyState.verifyImage.isNone = false ∧
    (0 : ℚ) ≤ sampleResult.confidence ∧ sampleResult.confidence ≤ 1 ∧
    (handleVerify verifyReadyState (.response false sampleResult)).1.verificationResult =
      some sampleResult :=
  ⟨by decide, by decide, by decide, by decide,
    (verify_failure_normal_outcome verifyReadyState false sampleResult
      (by decide) (by decide) (by decide) (by decide)).1⟩

/-- C9 is refuted: a transport failure of the health fetch or of the users
fetch is swallowed with no notification raised and no state change at all. -/
theorem read_failures_raise_no_notification :
    fetchHealth initialState none = initialState ∧
    fetchUsers initialState .failure = initialState ∧
    initialState.notification = none ∧
    (fetchHealth initialState none).notification = none ∧
    (fetchUsers initialState .failure).notification = none :=
  ⟨rfl, rfl, rfl, rfl, rfl⟩

/-- C9 (amended): failures of enroll, verify and delete are caught and
converted into an error notification with the loading flag back at idle;
failures of the health and users fetches are caught and never propagate,
but they raise no notification and leave the state entirely unchanged. -/
theorem failures_caught_and_converted (s : AppState) (d : Option String)
    (uid : String)
    (he1 : jsTrim s.userId ≠ "") (he2 : s.selectedFile.isNone = false)
    (hv1 : jsTrim s.token ≠ "") (hv2 : s.verifyImage.isNone = false) :
    ((handleEnroll s .networkError).1.isLoading = false ∧
     (handleEnroll s .networkError).1.notification =
       some ⟨"Network error during enrollment", "error"⟩) ∧
    ((handleEnroll s (.apiError d)).1.isLoading = false ∧
     (handleEnroll s (.apiError d)).1.notification =
       some ⟨d.getD "Enrollment failed", "error"⟩) ∧
    ((handleVerify s .networkError).1.isLoading = false ∧
     (handleVerify s .networkError).1.notification =
       some ⟨"Network error during verification", "error"⟩) ∧
    (deleteUser s uid true .networkError).1.notification =
      some ⟨"Network error during deletion", "error"⟩ ∧
    fetchHealth s none = s ∧
    fetchUsers s .failure = s := by
  unfold handleEnroll handleVerify deleteUser fetchHealth fetchUsers
  simp [he1, he2, hv1, hv2, showNotification]

/-- Witness for the amended C9 with both forms filled in. -/
theorem failures_caught_witness :
    jsTrim bothFormsFilled.userId ≠ "" ∧
    (handleEnroll bothFormsFilled .networkError).1.notification =
      some ⟨"Network error during enrollment", "error"⟩ :=
  ⟨by decide,
    ((failures_caught_and_converted bothFormsFilled none "u"
      (by decide) (by decide) (by decide) (by decide)).1).2⟩

end FaceAuth
